import Mathlib

/-!
Verification of the op-clustershell execution core against its
natural-language specification.

The definitions below are a shallow embedding of the Python source:

* `src/lib/ClusterShell/Worker/Rsh.py`   — subprocess transport
  (`Rsh._close`, `WorkerRsh._on_node_rc`, `WorkerRsh._on_node_timeout`,
  `WorkerRsh._check_fini`);
* `src/lib/ClusterShell/Worker/S3.py`    — fetch transport
  (`S3Client._start`, `S3Client._grab_response`, `S3Client._close`,
  `S3Worker.__init__`);
* `src/clush-api/chalicelib/Worker/S3.py` — alternate fetch revision;
* `src/lib/ClusterShell/Worker/Mqtt.py`  — publish transport
  (`MqttClient.__init__`, `MqttClient._start`, `MqttClient._log_error_msg`,
  `MqttClient._close`);
* `src/lib/ClusterShell/CLI/Clush.py`    — output handlers
  (`GatherOutputHandler.ev_close`, `LiveGatherOutputHandler`,
  `RunTimer.update`, `main` exit-status computation).

Machinery that lives in the repository but outside the provided sources
(`ExecWorker` completion accounting, `MsgTree` buffer grouping,
`bufnodeset_cmpkey`) is modelled from the specification; each such
definition says so in its doc comment.
-/

/-! ## Cohort completion accounting

State shared by a worker (cohort) across its clients (work units), as in
`WorkerRsh.__init__`: `_close_count = 0`, `_has_timeout = False`.  We also
record how many times each notification ran and how many times the handler
terminal callback `ev_close` fired, so the single-fire property is a plain
equation on the final state. -/

structure WState where
  closeCount : Nat
  hasTimeout : Bool
  rcNotifs : Nat
  timeoutNotifs : Nat
  terminalFires : Nat
  deriving Repr, DecidableEq

def WState.init : WState :=
  { closeCount := 0, hasTimeout := false, rcNotifs := 0,
    timeoutNotifs := 0, terminalFires := 0 }

/-- `WorkerRsh._on_node_rc`: forwards to the base class then increments
`_close_count` by one. -/
def onNodeRc (s : WState) : WState :=
  { s with closeCount := s.closeCount + 1, rcNotifs := s.rcNotifs + 1 }

/-- `WorkerRsh._on_node_timeout`: increments `_close_count` and sets
`_has_timeout`. -/
def onNodeTimeout (s : WState) : WState :=
  { s with closeCount := s.closeCount + 1, hasTimeout := true,
           timeoutNotifs := s.timeoutNotifs + 1 }

/-- `WorkerRsh._check_fini`: when `_close_count >= len(self.clients)` the
worker invokes the handler terminal callback (`ev_close`, preceded by
`ev_timeout` when `_has_timeout`).  `n` is the number of clients. -/
def checkFini (n : Nat) (s : WState) : WState :=
  if n ≤ s.closeCount then { s with terminalFires := s.terminalFires + 1 }
  else s

/-- The completion-relevant data of one `Rsh._close(abort, flush, timeout)`
call: `prc` is the value of `self.popen.wait()` (negative when the child
was killed by a signal) and `timeoutFlag` the `timeout` argument. -/
structure CloseEv where
  prc : Int
  timeoutFlag : Bool
  deriving Repr, DecidableEq

/-- Notification part of `Rsh._close`: `rc = -1`; `if prc >= 0: rc = prc`;
`if rc >= 0: _on_node_rc(key, rc)` `elif timeout: _on_node_timeout(key)`;
a negative wait status without the timeout flag invokes neither. -/
def closeNotify (s : WState) (ev : CloseEv) : WState :=
  if 0 ≤ ev.prc then onNodeRc s
  else if ev.timeoutFlag then onNodeTimeout s
  else s

/-- `Rsh._close` completion tail: the notification dispatch followed by
`self.worker._check_fini()`.  `n` is the number of clients of the owning
worker. -/
def rshClose (n : Nat) (s : WState) (ev : CloseEv) : WState :=
  checkFini n (closeNotify s ev)

/-- A close event is a completion when it carries a nonnegative wait status
or the timeout flag — exactly the cases that notify the worker. -/
def isCompletion (ev : CloseEv) : Bool :=
  decide (0 ≤ ev.prc) || ev.timeoutFlag

/-- Modelled from the spec: `ExecWorker._on_nodeset_close` / `_check_fini`
(file `Worker/Exec.py`, not under the provided sources) perform the same
completion accounting as `WorkerRsh`; `S3Client._close` and
`MqttClient._close` invoke them with return code `0` and no timeout flag,
so an Exec-style close is the `rshClose` step at `prc = 0`. -/
def execClose (n : Nat) (s : WState) : WState :=
  rshClose n s { prc := 0, timeoutFlag := false }

/-- Run a cohort of `n` clients through a sequence of close events. -/
def runCloses (n : Nat) (evs : List CloseEv) : WState :=
  evs.foldl (rshClose n) WState.init

lemma checkFini_closeCount (n : Nat) (s : WState) :
    (checkFini n s).closeCount = s.closeCount := by
  unfold checkFini
  split_ifs <;> rfl

lemma checkFini_terminalFires (n : Nat) (s : WState) :
    (checkFini n s).terminalFires =
      if n ≤ s.closeCount then s.terminalFires + 1 else s.terminalFires := by
  unfold checkFini
  split_ifs <;> rfl

lemma closeNotify_closeCount (s : WState) (ev : CloseEv) :
    (closeNotify s ev).closeCount =
      s.closeCount + (if isCompletion ev then 1 else 0) := by
  unfold closeNotify isCompletion
  by_cases hp : (0 : Int) ≤ ev.prc
  · simp [hp, onNodeRc]
  · by_cases ht : ev.timeoutFlag = true
    · simp [hp, ht, onNodeTimeout]
    · simp [hp, ht]

lemma closeNotify_terminalFires (s : WState) (ev : CloseEv) :
    (closeNotify s ev).terminalFires = s.terminalFires := by
  unfold closeNotify
  split_ifs <;> rfl

lemma rshClose_closeCount (n : Nat) (s : WState) (ev : CloseEv) :
    (rshClose n s ev).closeCount =
      s.closeCount + (if isCompletion ev then 1 else 0) := by
  unfold rshClose
  rw [checkFini_closeCount, closeNotify_closeCount]

lemma rshClose_terminalFires (n : Nat) (s : WState) (ev : CloseEv) :
    (rshClose n s ev).terminalFires =
      if n ≤ (rshClose n s ev).closeCount then s.terminalFires + 1
      else s.terminalFires := by
  unfold rshClose
  rw [checkFini_terminalFires, checkFini_closeCount, closeNotify_terminalFires]

lemma foldl_closeCount (n : Nat) (evs : List CloseEv) :
    ∀ s : WState,
      (evs.foldl (rshClose n) s).closeCount
        = s.closeCount + evs.countP (fun e => isCompletion e) := by
  induction evs with
  | nil => intro s; simp
  | cons e rest ih =>
      intro s
      rw [List.foldl_cons, ih (rshClose n s e), rshClose_closeCount,
          List.countP_cons]
      by_cases h : isCompletion e = true
      · simp [h]
        omega
      · simp [h]

/-- While the close count stays strictly below the client count, no
terminal callback fires. -/
lemma foldl_terminalFires_of_lt (n : Nat) (evs : List CloseEv) :
    ∀ s : WState,
      s.closeCount + evs.countP (fun e => isCompletion e) < n →
      (evs.foldl (rshClose n) s).terminalFires = s.terminalFires := by
  induction evs with
  | nil => intro s _; rfl
  | cons e rest ih =>
      intro s hlt
      rw [List.countP_cons] at hlt
      have hstep := rshClose_closeCount n s e
      have hcnt : (rshClose n s e).closeCount
          + rest.countP (fun x => isCompletion x) < n := by
        by_cases h : isCompletion e = true <;> simp [h] at hstep hlt ⊢ <;> omega
      rw [List.foldl_cons, ih (rshClose n s e) hcnt]
      rw [rshClose_terminalFires]
      have hne : ¬ n ≤ (rshClose n s e).closeCount := by omega
      simp [hne]

/-- C1: For every cohort and every interleaving of its work units'
completions (each unit closing exactly once with a return code or a
timeout), the close count increases by exactly one per close — so after
`k` closes it equals `k` — and the handler terminal callback fires
exactly once, precisely when the close count reaches the number of work
units: it has fired zero times after any proper prefix and exactly once
after the full interleaving. -/
theorem cohort_terminal_single_fire (n : Nat) (evs : List CloseEv)
    (hlen : evs.length = n) (hpos : 0 < n)
    (hcomp : ∀ e ∈ evs, isCompletion e = true) :
    (∀ k, k ≤ n → (runCloses n (evs.take k)).closeCount = k) ∧
    (∀ k, k < n → (runCloses n (evs.take k)).terminalFires = 0) ∧
    (runCloses n evs).terminalFires = 1 := by
  have hcount : ∀ k, (evs.take k).countP (fun e => isCompletion e)
      = (evs.take k).length := by
    intro k
    refine List.countP_eq_length.mpr ?_
    intro a ha
    simpa using hcomp a (List.take_subset _ _ ha)
  refine ⟨?_, ?_, ?_⟩
  · intro k hk
    unfold runCloses
    rw [foldl_closeCount, hcount k, List.length_take, hlen]
    simp [WState.init, Nat.min_eq_left hk]
  · intro k hk
    unfold runCloses
    rw [foldl_terminalFires_of_lt n (evs.take k) WState.init ?_]
    · rfl
    · rw [hcount k, List.length_take, hlen]
      simp [WState.init]
      omega
  · have hne : evs ≠ [] := by
      intro h
      rw [h] at hlen
      simp at hlen
      omega
    have hsplit : evs.dropLast ++ [evs.getLast hne] = evs :=
      List.dropLast_append_getLast hne
    unfold runCloses
    rw [← hsplit, List.foldl_append, List.foldl_cons, List.foldl_nil]
    set s1 := evs.dropLast.foldl (rshClose n) WState.init with hs1
    have hlast_mem : evs.getLast hne ∈ evs := List.getLast_mem hne
    have hdrop_cnt : evs.dropLast.countP (fun e => isCompletion e)
        = n - 1 := by
      have : ∀ a ∈ evs.dropLast, isCompletion a = true := by
        intro a ha
        exact hcomp a (List.dropLast_subset _ ha)
      rw [List.countP_eq_length.mpr (by simpa using this),
          List.length_dropLast, hlen]
    have hs1cc : s1.closeCount = n - 1 := by
      rw [hs1, foldl_closeCount, hdrop_cnt]
      simp [WState.init]
    have hs1tf : s1.terminalFires = 0 := by
      rw [hs1, foldl_terminalFires_of_lt n evs.dropLast WState.init ?_]
      · rfl
      · rw [hdrop_cnt]
        simp [WState.init]
        omega
    rw [rshClose_terminalFires, rshClose_closeCount, hs1cc, hs1tf]
    have hc : isCompletion (evs.getLast hne) = true := hcomp _ hlast_mem
    simp [hc]
    omega

/-- Witness for C1 at a concrete cohort: two clients, one closing with
return code 0 and one with return code 3. -/
theorem cohort_terminal_single_fire_witness :
    (runCloses 2 (List.take 1 [{ prc := 0, timeoutFlag := false },
                   { prc := 3, timeoutFlag := false }])).terminalFires = 0 ∧
    (runCloses 2 ([{ prc := 0, timeoutFlag := false },
                   { prc := 3, timeoutFlag := false }] : List CloseEv)).terminalFires = 1 := by
  have h := cohort_terminal_single_fire 2
      [{ prc := 0, timeoutFlag := false }, { prc := 3, timeoutFlag := false }]
      (by decide) (by decide) (by decide)
  exact ⟨h.2.1 1 (by decide), h.2.2⟩

/-- C10: in the subprocess cohort the close count is incremented only by
the return-code or timeout notification; a client whose wait status is
negative and whose close is not flagged as timeout invokes neither
(`closeNotify` leaves the worker state — notification counters included —
unchanged), so it never contributes to the close count, and the cohort's
terminal condition `close_count ≥ len(clients)` is then never met at any
point of the trace. -/
theorem rsh_negative_rc_starves_terminal (n : Nat) (evs : List CloseEv)
    (hlen : evs.length = n)
    (e0 : CloseEv) (he0 : e0 ∈ evs) (hneg : e0.prc < 0)
    (hto : e0.timeoutFlag = false) :
    (∀ s, closeNotify s e0 = s) ∧
    (runCloses n evs).closeCount < n ∧
    (∀ k, (runCloses n (evs.take k)).terminalFires = 0) := by
  have hnc : isCompletion e0 = false := by
    simp [isCompletion, hto]
    omega
  have hcount_lt : evs.countP (fun e => isCompletion e) < n := by
    have hle : evs.countP (fun e => isCompletion e) ≤ evs.length :=
      List.countP_le_length _
    have hne : evs.countP (fun e => isCompletion e) ≠ evs.length := by
      intro h
      have := List.countP_eq_length.mp h e0 he0
      simp [hnc] at this
    omega
  refine ⟨?_, ?_, ?_⟩
  · intro s
    unfold closeNotify
    have hp : ¬ (0 : Int) ≤ e0.prc := by omega
    simp [hp, hto]
  · unfold runCloses
    rw [foldl_closeCount]
    simpa [WState.init] using hcount_lt
  · intro k
    unfold runCloses
    rw [foldl_terminalFires_of_lt n (evs.take k) WState.init ?_]
    · rfl
    · have hsub : (evs.take k).countP (fun e => isCompletion e)
          ≤ evs.countP (fun e => isCompletion e) :=
        (List.take_sublist k evs).countP_le _
      simp [WState.init]
      omega

/-- Witness for C10: two clients, the first completing with return code 0,
the second killed by a signal (wait status `-9`) on an abort without
timeout; the terminal callback never fires. -/
theorem rsh_negative_rc_starves_terminal_witness :
    (runCloses 2 ([{ prc := 0, timeoutFlag := false },
                   { prc := -9, timeoutFlag := false }] : List CloseEv)).closeCount < 2 ∧
    (runCloses 2 (List.take 2 [{ prc := 0, timeoutFlag := false },
                   { prc := -9, timeoutFlag := false }])).terminalFires = 0 := by
  have h := rsh_negative_rc_starves_terminal 2
      [{ prc := 0, timeoutFlag := false }, { prc := -9, timeoutFlag := false }]
      (by decide) { prc := -9, timeoutFlag := false } (by decide) (by decide)
      (by decide)
  exact ⟨h.2.1, h.2.2 2⟩

/-! ## Fetch transport (`S3Client`, `src/lib/ClusterShell/Worker/S3.py`)

`_grab_response` runs off-thread and tries, in order: the output object
`{requestId}/{key}/output.json`, the error object
`{requestId}/{key}/error.json`, and a synthesized diagnostic.  A missing
object makes `download_fileobj` raise, which the code catches; we model
the object store as two `Option String` fields. -/

inductive SName where
  | stdout
  | stderr
  deriving Repr, DecidableEq

/-- What the object store holds under `{requestId}/{key}/`: the content of
`output.json` and of `error.json`, when present. -/
structure S3Store where
  output : Option String
  error : Option String
  deriving Repr, DecidableEq

/-- `S3Client._grab_response` (src/lib revision): on finding the output
object it writes its decoded content plus a newline to the stdout pipe;
otherwise, on finding the error object, `_log_error_msg` writes its
content plus a newline to the stderr pipe; otherwise `_log_error_msg`
writes the synthesized diagnostic.  The result is the ordered list of
(stream, payload) line events the work unit emits. -/
def grab_response (store : S3Store) (key : String) : List (SName × String) :=
  match store.output with
  | some content => [(SName.stdout, content ++ "\n")]
  | none =>
    match store.error with
    | some econtent => [(SName.stderr, econtent ++ "\n")]
    | none =>
        [(SName.stderr,
          "Cannot find reponse for " ++ key ++ ". Try again later.\n")]

/-- `S3Client._grab_response` (src/clush-api revision): same fallback chain
but each payload is passed to `_on_nodeset_msgline` without a trailing
newline. -/
def grab_response_api (store : S3Store) (key : String) : List (SName × String) :=
  match store.output with
  | some content => [(SName.stdout, content)]
  | none =>
    match store.error with
    | some econtent => [(SName.stderr, econtent)]
    | none =>
        [(SName.stderr,
          "Cannot find reponse for " ++ key ++ ". Try again later.")]

/-- Count the events of one stream in an event list. -/
def countStream (evts : List (SName × String)) (sn : SName) : Nat :=
  evts.countP (fun e => e.1 == sn)

/-- C2: the fetch adapter's fallback chain.  With only the error object
present it emits exactly one stderr line event carrying that object's
content and zero stdout events; with neither object present it emits the
synthesized "not found, try again later" diagnostic on stderr; with both
objects present it emits the output object's content on stdout — the
first successful chain step short-circuits the rest.  Both revisions of
the adapter are covered. -/
theorem fetch_fallback_chain (key econtent ocontent : String) :
    (grab_response { output := none, error := some econtent } key
        = [(SName.stderr, econtent ++ "\n")] ∧
      countStream (grab_response { output := none, error := some econtent } key)
        SName.stderr = 1 ∧
      countStream (grab_response { output := none, error := some econtent } key)
        SName.stdout = 0) ∧
    (grab_response { output := none, error := none } key
        = [(SName.stderr,
            "Cannot find reponse for " ++ key ++ ". Try again later.\n")]) ∧
    (grab_response { output := some ocontent, error := some econtent } key
        = [(SName.stdout, ocontent ++ "\n")]) ∧
    (grab_response_api { output := none, error := some econtent } key
        = [(SName.stderr, econtent)] ∧
      countStream (grab_response_api { output := none, error := some econtent } key)
        SName.stdout = 0) ∧
    (grab_response_api { output := none, error := none } key
        = [(SName.stderr,
            "Cannot find reponse for " ++ key ++ ". Try again later.")]) ∧
    (grab_response_api { output := some ocontent, error := some econtent } key
        = [(SName.stdout, ocontent)]) := by
  refine ⟨⟨rfl, ?_, ?_⟩, rfl, rfl, ⟨rfl, ?_⟩, rfl, rfl⟩ <;>
    simp [countStream, grab_response, grab_response_api, List.countP_cons]

/-! ## Publish transport (`MqttClient`, `src/lib/ClusterShell/Worker/Mqtt.py`) -/

/-- Model of Python string membership `pat in s` (substring test). -/
def pyIn (pat s : String) : Bool :=
  decide (pat.toList <:+: s.toList)

/-- Model of Python `s.startswith(pre)`. -/
def pyStartswith (s pre : String) : Bool :=
  pre.toList.isPrefixOf s.toList

/-- A single-quote character, as Python `repr` uses around strings. -/
def squote : String := String.singleton (Char.ofNat 39)

/-- Model of Python `repr(Exception(msg))` for a message free of quote and
backslash characters: the text `Exception(` followed by the single-quoted
message. -/
def pyReprException (msg : String) : String :=
  "Exception(" ++ squote ++ msg ++ squote ++ ")"

/-- `MqttClient.__init__` topic resolution:
`opal + "command" if "ERROR" not in opal else opal`. -/
def mqtt_topic (opal : String) : String :=
  if pyIn "ERROR" opal then opal else opal ++ "command"

/-- Result of one publish work unit: how many times the publish primitive
(`self.client.publish`) ran, and the ordered line events emitted. -/
structure MqttOutcome where
  publishCalls : Nat
  events : List (SName × String)
  deriving Repr, DecidableEq

/-- `MqttClient._start` / `_send_message` / `_log_error_msg`: when the
resolved topic starts with `"ERROR: "` the adapter raises and catches
`Exception(topic)`, skips publishing, and the thread writes
`repr(e) + "\n"` to the stderr pipe; otherwise it publishes once and
writes a confirmation line naming the request id to stdout, or — when
the publish primitive itself raises `e` — `repr(e) + "\n"` to stderr.
`pubErr` is the repr text of that publish exception, when one occurs. -/
def mqtt_start (topic requestId : String) (pubErr : Option String) :
    MqttOutcome :=
  if pyStartswith topic "ERROR: " then
    { publishCalls := 0,
      events := [(SName.stderr, pyReprException topic ++ "\n")] }
  else
    match pubErr with
    | none =>
        { publishCalls := 1,
          events := [(SName.stdout,
            "MQTT message with requestID " ++ requestId
              ++ " published successfully!\n")] }
    | some erepr =>
        { publishCalls := 1, events := [(SName.stderr, erepr ++ "\n")] }

/-- C3 counterexample: for the concrete pre-failed resolution
`"ERROR: bad topic"`, the publish primitive is indeed never called, but
the stderr payload is `repr(Exception(topic))` plus a newline — the text
`Exception('ERROR: bad topic')` — and not the sentinel text verbatim
(neither bare nor newline-terminated). -/
theorem mqtt_sentinel_not_verbatim :
    (mqtt_start (mqtt_topic "ERROR: bad topic") "r1" none).publishCalls = 0 ∧
    (mqtt_start (mqtt_topic "ERROR: bad topic") "r1" none).events =
      [(SName.stderr, pyReprException "ERROR: bad topic" ++ "\n")] ∧
    (mqtt_start (mqtt_topic "ERROR: bad topic") "r1" none).events.map Prod.snd
      ≠ ["ERROR: bad topic"] ∧
    (mqtt_start (mqtt_topic "ERROR: bad topic") "r1" none).events.map Prod.snd
      ≠ ["ERROR: bad topic\n"] := by
  refine ⟨by decide, by decide, by decide, by decide⟩

/-- C3 amended: a publish work unit whose topic resolution already failed
upstream (topic carries the `"ERROR: ..."` sentinel) keeps the sentinel as
its topic, never calls the publish primitive, and writes
`repr(Exception(sentinel))` plus a newline — a payload in which the
sentinel text occurs verbatim as a substring, wrapped in the exception
rendering — to its stderr channel before closing. -/
theorem mqtt_prefailed_skips_publish (opal requestId : String)
    (pubErr : Option String)
    (h : pyStartswith opal "ERROR: " = true) :
    mqtt_topic opal = opal ∧
    (mqtt_start (mqtt_topic opal) requestId pubErr).publishCalls = 0 ∧
    (mqtt_start (mqtt_topic opal) requestId pubErr).events =
      [(SName.stderr, pyReprException opal ++ "\n")] ∧
    opal.toList <:+: (pyReprException opal ++ "\n").toList := by
  have hpre : "ERROR: ".toList <+: opal.toList := by
    simpa [pyStartswith, List.isPrefixOf_iff_prefix] using h
  have hpre5 : "ERROR".toList <+: "ERROR: ".toList := by decide
  have hinf : "ERROR".toList <:+: opal.toList :=
    (hpre5.trans hpre).isInfix
  have hinf2 : pyIn "ERROR" opal = true := by
    unfold pyIn
    exact decide_eq_true hinf
  have htopic : mqtt_topic opal = opal := by
    simp [mqtt_topic, hinf2]
  refine ⟨htopic, ?_, ?_, ?_⟩
  · rw [htopic]
    unfold mqtt_start
    simp [h]
  · rw [htopic]
    unfold mqtt_start
    simp [h]
  · refine ⟨("Exception(" ++ squote).toList, (squote ++ ")" ++ "\n").toList, ?_⟩
    simp [pyReprException]

/-- Witness for the amended C3 claim at a concrete sentinel topic. -/
theorem mqtt_prefailed_skips_publish_witness :
    pyStartswith "ERROR: no opal" "ERROR: " = true ∧
    (mqtt_start (mqtt_topic "ERROR: no opal") "r2" none).publishCalls = 0 :=
  ⟨by decide,
   (mqtt_prefailed_skips_publish "ERROR: no opal" "r2" none (by decide)).2.1⟩

/-! ## Fetch worker target substitution (`S3Worker.__init__`) -/

/-- `S3Worker.__init__` node selection: when the caller gives no nodes the
worker lists responded targets under `{requestId}/` (`_get_nodes`); when
that listing is also empty it substitutes the single sentinel node list
`["localhost"]`. -/
def s3_worker_nodes (given listed : List String) : List String :=
  if given.length = 0 then
    if listed.length = 0 then ["localhost"] else listed
  else given

/-- `S3Client._start` thread-target selection: for the sentinel key
`"localhost"` the thread runs `_log_error_msg` with the "No ACUs have
replied" diagnostic, otherwise `_grab_response`.  The result is the list
of line events the work unit emits. -/
def s3_start_events (requestId key : String) (store : S3Store) :
    List (SName × String) :=
  if key = "localhost" then
    [(SName.stderr,
      "No ACUs have replied with requestId " ++ requestId
        ++ ". Either wait longer for a response, or check that the value provided is correct.\n")]
  else grab_response store key

/-- C6: a fetch dispatch with an empty target set and an empty object-store
listing substitutes exactly one synthetic placeholder target
(`"localhost"`); that placeholder emits a single stderr diagnostic naming
the correlation identifier (the request id occurs verbatim in the
payload) and nothing else, and the one-client cohort still reaches its
terminal state (the terminal callback fires once after the placeholder's
close). -/
theorem fetch_zero_target_placeholder (requestId : String) (store : S3Store) :
    s3_worker_nodes [] [] = ["localhost"] ∧
    (s3_worker_nodes [] []).length = 1 ∧
    s3_start_events requestId "localhost" store =
      [(SName.stderr,
        "No ACUs have replied with requestId " ++ requestId
          ++ ". Either wait longer for a response, or check that the value provided is correct.\n")] ∧
    countStream (s3_start_events requestId "localhost" store) SName.stdout = 0 ∧
    requestId.toList <:+:
      ("No ACUs have replied with requestId " ++ requestId
        ++ ". Either wait longer for a response, or check that the value provided is correct.\n").toList ∧
    (execClose 1 WState.init).terminalFires = 1 := by
  refine ⟨rfl, rfl, rfl, ?_, ?_, by decide⟩
  · simp [countStream, s3_start_events, List.countP_cons]
  · exact ⟨"No ACUs have replied with requestId ".toList,
      (". Either wait longer for a response, or check that the value provided is correct.\n").toList,
      by simp⟩

/-! ## Return-code accounting of the publish and fetch transports -/

/-- The literal return code `S3Client._close` reports through
`self._on_nodeset_close(self.key, 0)` — both revisions. -/
def s3_close_rc : Nat := 0

/-- The literal return code `MqttClient._close` reports through
`self._on_nodeset_close(self.key, 0)`. -/
def mqtt_close_rc : Nat := 0

/-- Close every target of a cohort with one fixed return code, yielding
the (target, return code) table the worker accumulates. -/
def closeAll (keys : List String) (rc : Nat) : List (String × Nat) :=
  keys.map (fun k => (k, rc))

/-- Distinct return codes of a table, first occurrence first. -/
def distinctRcs : List Nat → List Nat
  | [] => []
  | x :: xs => x :: (distinctRcs xs).filter (fun y => !(y == x))

/-- Modelled from the spec: `iter_retcodes` (spec §4.3 `iterOutcomeGroups`)
partitions the closed targets by return code — "code is the key"; the
accounting lives in `Worker/Worker.py`, not under the provided sources. -/
def retcodeGroups (table : List (String × Nat)) : List (Nat × List String) :=
  (distinctRcs (table.map Prod.snd)).map
    (fun rc => (rc, (table.filter (fun e => e.2 == rc)).map Prod.fst))

/-- The groups the nonzero-exit summary loop
(`GatherOutputHandler._close_common`, `DirectOutputHandler.ev_hup`)
reports: those with return code ≠ 0. -/
def nonzeroRcGroups (table : List (String × Nat)) : List (Nat × List String) :=
  (retcodeGroups table).filter (fun g => !(g.1 == 0))

lemma closeAll_zero_snd (keys : List String) :
    (closeAll keys 0).map Prod.snd = keys.map (fun _ => 0) := by
  unfold closeAll
  rw [List.map_map]
  rfl

lemma distinctRcs_const_zero (keys : List String) :
    distinctRcs (keys.map (fun _ => 0)) =
      if keys.isEmpty then [] else [0] := by
  induction keys with
  | nil => simp [distinctRcs]
  | cons k ks ih =>
      rw [List.map_cons, distinctRcs, ih]
      by_cases h : ks.isEmpty <;> simp [h]

lemma closeAll_zero_filter (keys : List String) :
    (closeAll keys 0).filter (fun e => e.2 == 0) = closeAll keys 0 := by
  apply List.filter_eq_self.mpr
  intro a ha
  have ha' : a ∈ keys.map (fun k => (k, (0 : Nat))) := ha
  rcases List.mem_map.mp ha' with ⟨k, _, rfl⟩
  rfl

lemma closeAll_zero_fst (keys : List String) :
    (closeAll keys 0).map Prod.fst = keys := by
  unfold closeAll
  rw [List.map_map]
  exact List.map_id keys

lemma retcodeGroups_closeAll_zero (keys : List String) :
    retcodeGroups (closeAll keys 0) =
      (if keys.isEmpty then [] else [(0, keys)]) := by
  unfold retcodeGroups
  rw [closeAll_zero_snd, distinctRcs_const_zero]
  by_cases h : keys.isEmpty
  · simp [h]
  · rw [if_neg h, if_neg h, List.map_cons, List.map_nil,
        closeAll_zero_filter, closeAll_zero_fst]

/-- C9: every publish and fetch work unit reports return code 0 to its
cohort's completion accounting when it closes, whatever its operation
produced; hence the return-code table of such a cohort holds only zeros,
the outcome grouping is the single group `(0, all targets)` (empty when
there are no targets), and the nonzero-exit summary is always empty. -/
theorem publish_fetch_always_rc_zero (keys : List String) :
    s3_close_rc = 0 ∧ mqtt_close_rc = 0 ∧
    (closeAll keys s3_close_rc).all (fun e => e.2 == 0) = true ∧
    retcodeGroups (closeAll keys s3_close_rc) =
      (if keys.isEmpty then [] else [(0, keys)]) ∧
    nonzeroRcGroups (closeAll keys s3_close_rc) = [] ∧
    nonzeroRcGroups (closeAll keys mqtt_close_rc) = [] := by
  have hnz : nonzeroRcGroups (closeAll keys 0) = [] := by
    unfold nonzeroRcGroups
    rw [retcodeGroups_closeAll_zero]
    by_cases h : keys.isEmpty <;> simp [h]
  refine ⟨rfl, rfl, ?_, ?_, ?_, ?_⟩
  · simp [closeAll, s3_close_rc]
  · exact retcodeGroups_closeAll_zero keys
  · exact hnz
  · exact hnz

/-! ## Exit status (`main`, `src/lib/ClusterShell/CLI/Clush.py`) -/

/-- Modelled from the spec: `task.max_retcode()` is "the worst (maximum)
per-target return code observed" (spec §6); the Task class is an external
collaborator.  `rcs` is the list of observed per-target return codes. -/
def task_max_retcode (rcs : List Nat) : Nat :=
  rcs.foldr max 0

/-- Exit-status computation at the end of `main`: `rc = 0`;
`if config.maxrc: rc = task.max_retcode()`;
`if task.num_timeout() > 0: rc = 255` (inside the `maxrc` branch). -/
def clush_main_rc (maxrc : Bool) (rcs : List Nat) (numTimeout : Nat) : Nat :=
  if maxrc then
    if 0 < numTimeout then 255 else task_max_retcode rcs
  else 0

lemma task_max_retcode_ge (rcs : List Nat) :
    ∀ r ∈ rcs, r ≤ task_max_retcode rcs := by
  induction rcs with
  | nil => intro r hr; cases hr
  | cons x xs ih =>
      intro r hr
      rcases List.mem_cons.mp hr with rfl | hmem
      · exact Nat.le_max_left _ _
      · exact le_trans (ih r hmem) (Nat.le_max_right _ _)

lemma task_max_retcode_mem (rcs : List Nat) (hne : rcs ≠ []) :
    task_max_retcode rcs ∈ rcs ∨ task_max_retcode rcs = 0 := by
  induction rcs with
  | nil => exact absurd rfl hne
  | cons x xs ih =>
      unfold task_max_retcode
      rw [List.foldr_cons]
      rcases Nat.le_total x (xs.foldr max 0) with h | h
      · rw [Nat.max_eq_right h]
        by_cases hxs : xs = []
        · subst hxs
          simp
        · rcases ih hxs with hm | hz
          · exact Or.inl (List.mem_cons_of_mem _ hm)
          · exact Or.inr hz
      · rw [Nat.max_eq_left h]
        exact Or.inl (List.mem_cons_self _ _)

/-- C7: with the max-return-code option configured, the process-level exit
status equals the maximum per-target return code observed (an upper bound
of all observed codes, and itself an observed code unless zero), except
that it equals the fixed sentinel 255 whenever at least one target timed
out. -/
theorem maxrc_exit_status (rcs : List Nat) (numTimeout : Nat) :
    clush_main_rc true rcs numTimeout =
      (if 0 < numTimeout then 255 else task_max_retcode rcs) ∧
    (∀ r ∈ rcs, r ≤ task_max_retcode rcs) ∧
    (rcs ≠ [] →
      task_max_retcode rcs ∈ rcs ∨ task_max_retcode rcs = 0) ∧
    clush_main_rc false rcs numTimeout = 0 := by
  exact ⟨rfl, task_max_retcode_ge rcs, task_max_retcode_mem rcs, rfl⟩

/-- Witness for C7 at concrete tasks: return codes `[0, 3, 1]` with no
timeout give exit status 3; the same codes with one timeout give 255. -/
theorem maxrc_exit_status_witness :
    clush_main_rc true [0, 3, 1] 0 = 3 ∧
    clush_main_rc true [0, 3, 1] 1 = 255 ∧
    3 ≤ task_max_retcode [0, 3, 1] :=
  ⟨by decide, by decide,
   (maxrc_exit_status [0, 3, 1] 0).2.1 3 (by decide)⟩

/-! ## Progress meter (`RunTimer`, `src/lib/ClusterShell/CLI/Clush.py`)

`RunTimer.__init__` sets `cnt_last = -1` and `bytes_written = 0`;
`OutputHandler.ev_written` adds each written size to `bytes_written`, and
nothing ever resets it.  `RunTimer.update` recomputes `cnt` (the number of
still-pending engine clients, with the gateway adjustment in tree mode)
and redraws only under `self.bytes_written > 0 or cnt != self.cnt_last`,
recording `cnt_last = cnt` when it does. -/

structure RunTimerState where
  cntLast : Int
  bytesWritten : Nat
  deriving Repr, DecidableEq

def RunTimerState.init : RunTimerState := { cntLast := -1, bytesWritten := 0 }

/-- `OutputHandler.ev_written`: `self._runtimer.eh.bytes_written += size`. -/
def ev_written (rt : RunTimerState) (size : Nat) : RunTimerState :=
  { rt with bytesWritten := rt.bytesWritten + size }

/-- `RunTimer.update`, reduced to its redraw decision: returns the updated
state and whether this tick rendered a line. -/
def runtimer_update (rt : RunTimerState) (cnt : Int) : RunTimerState × Bool :=
  if 0 < rt.bytesWritten ∨ cnt ≠ rt.cntLast then
    ({ rt with cntLast := cnt }, true)
  else (rt, false)

/-- One timer tick: the bytes written since the previous tick arrive via
`ev_written`, then `update` runs with the current pending count. -/
def runtimer_tick (rt : RunTimerState) (newBytes : Nat) (cnt : Int) :
    RunTimerState × Bool :=
  runtimer_update (ev_written rt newBytes) cnt

/-- C2-style counterexample for C8: concrete two-tick run.  Tick 1 writes
100 bytes at pending count 5 and renders.  Tick 2 has zero bytes written
since tick 1 and the same completed count (same `cnt`), yet the meter
still renders, because the redraw test uses the cumulative
`bytes_written > 0`, not "bytes written since the last tick". -/
theorem runtimer_redraws_without_change :
    (runtimer_tick RunTimerState.init 100 5).2 = true ∧
    ((runtimer_tick RunTimerState.init 100 5).1.cntLast = 5) ∧
    (runtimer_tick (runtimer_tick RunTimerState.init 100 5).1 0 5).2 = true := by
  refine ⟨by decide, by decide, by decide⟩

/-- C8 amended: on each tick the meter renders exactly when the pending
count changed since the last rendered tick or the cumulative number of
bytes ever written is positive — an unconditional biconditional, stated
as an equation on the redraw decision.  In both directions: once any
bytes have been written, every tick renders even with no new bytes and
an unchanged count; and a tick with no bytes ever written and an
unchanged count renders nothing. -/
theorem runtimer_render_condition (rt : RunTimerState) (newBytes : Nat)
    (cnt : Int) :
    ((runtimer_tick rt newBytes cnt).2
      = (decide (0 < rt.bytesWritten + newBytes)
          || decide (cnt ≠ rt.cntLast))) ∧
    (0 < rt.bytesWritten → (runtimer_tick rt newBytes cnt).2 = true) ∧
    (rt.bytesWritten = 0 → newBytes = 0 → cnt = rt.cntLast →
      (runtimer_tick rt newBytes cnt).2 = false) ∧
    (runtimer_tick rt newBytes cnt).1.bytesWritten
      = rt.bytesWritten + newBytes := by
  have heq : (runtimer_tick rt newBytes cnt).2
      = (decide (0 < rt.bytesWritten + newBytes)
          || decide (cnt ≠ rt.cntLast)) := by
    unfold runtimer_tick runtimer_update ev_written
    by_cases h1 : 0 < rt.bytesWritten + newBytes
    · simp [h1]
    · by_cases h2 : cnt ≠ rt.cntLast <;> simp [h1, h2]
  refine ⟨heq, ?_, ?_, ?_⟩
  · intro hpos
    rw [heq]
    have h1 : 0 < rt.bytesWritten + newBytes := by omega
    simp [h1]
  · intro h0 hn hc
    rw [heq, h0, hn, hc]
    simp
  · unfold runtimer_tick runtimer_update ev_written
    split_ifs <;> rfl

/-- Witness for the amended C8 at two concrete states: one byte already
written, no new bytes, unchanged count — the tick still renders; no
bytes ever written, no new bytes, unchanged count — the tick renders
nothing. -/
theorem runtimer_render_condition_witness :
    (runtimer_tick { cntLast := 4, bytesWritten := 1 } 0 4).2 = true ∧
    (runtimer_tick { cntLast := 4, bytesWritten := 0 } 0 4).2 = false :=
  ⟨(runtimer_render_condition { cntLast := 4, bytesWritten := 1 } 0 4).2.1
      (by decide),
   (runtimer_render_condition { cntLast := 4, bytesWritten := 0 } 0 4).2.2.1
      rfl rfl rfl⟩

/-! ## Buffer grouping and natural-order sorting

`MsgTree`/`iter_buffers` and `bufnodeset_cmpkey` live in modules outside
the provided sources (`MsgTree.py`, `CLI/Utils.py`); they are modelled
from the spec: a Buffer Grouping maps each distinct payload to the
targets that produced exactly that payload (spec §3), and groups are
ordered by the natural-order minimum target key within each group (spec
§4.4).  Natural order is modelled as lexicographic character order, with
which it coincides on the plain keys used here. -/

/-- Lexicographic order on character lists. -/
def lexLtChars : List Char → List Char → Bool
  | [], [] => false
  | [], _ :: _ => true
  | _ :: _, [] => false
  | a :: as, b :: bs =>
      if a.toNat < b.toNat then true
      else if b.toNat < a.toNat then false
      else lexLtChars as bs

/-- Natural (here: lexicographic) order on target keys. -/
def strLt (a b : String) : Bool := lexLtChars a.toList b.toList

/-- Insertion into a list sorted by `le`. -/
def insertSorted (le : α → α → Bool) (x : α) : List α → List α
  | [] => [x]
  | y :: ys => if le x y then x :: y :: ys else y :: insertSorted le x ys

/-- Stable insertion sort by `le` (models Python `sorted(..., key=...)`). -/
def sortLe (le : α → α → Bool) : List α → List α
  | [] => []
  | x :: xs => insertSorted le x (sortLe le xs)

/-- Distinct strings of a list, first occurrence first. -/
def distinctStrs : List String → List String
  | [] => []
  | x :: xs => x :: (distinctStrs xs).filter (fun y => !(y == x))

/-- Modelled from the spec: the Buffer Grouping of (target, payload)
pairs — each distinct payload with the list of targets that produced it
(`MsgTree.walk` / `Worker.iter_buffers`, not under the provided
sources). -/
def bufferGroups (pairs : List (String × String)) :
    List (String × List String) :=
  (distinctStrs (pairs.map Prod.snd)).map
    (fun buf => (buf, (pairs.filter (fun e => e.2 == buf)).map Prod.fst))

/-- Natural-order minimum key of a target list. -/
def minNode : List String → String
  | [] => ""
  | x :: xs => xs.foldl (fun a b => if strLt b a then b else a) x

/-- Modelled from the spec: `bufnodeset_cmpkey` (CLI/Utils.py, not under
the provided sources) — order (payload, targets) groups by the
natural-order minimum target key. -/
def groupLe (a b : String × List String) : Bool :=
  strLt (minNode a.2) (minNode b.2) || minNode a.2 == minNode b.2

/-- Buffer groups of an entry, sorted the way the handlers render them. -/
def walkGather (pairs : List (String × String)) :
    List (String × List String) :=
  sortLe groupLe (bufferGroups pairs)

/-! ## Gathered output handler (`GatherOutputHandler.ev_close`) -/

/-- One rendered element of the gathered report. -/
inductive RenderItem where
  | gather (buf : String) (nodes : List String)
  | finalizeLine (nodes : List String)
  deriving Repr, DecidableEq

/-- `GatherOutputHandler.ev_close` rendering: iterate the return-code
groups in sorted order; within each group sort the buffer groups of its
targets by `bufnodeset_cmpkey` and print each once
(`print_gather(nodeset, buf)`), removing the printed targets from
`ns_remain`; any targets left (they produced no buffer) get a
`print_gather_finalize` residual line. -/
def gather_ev_close (retGroups : List (Nat × List String))
    (pairs : List (String × String)) : List RenderItem :=
  (sortLe (fun a b => decide (a.1 ≤ b.1)) retGroups).flatMap
    (fun g =>
      let groups := walkGather (pairs.filter (fun p => g.2.contains p.1))
      let rendered := groups.map (fun bg => RenderItem.gather bg.1 bg.2)
      let remain := g.2.filter
        (fun n => !(groups.any (fun bg => bg.2.contains n)))
      rendered ++
        (if remain.isEmpty then [] else [RenderItem.finalizeLine remain]))

/-- C5: gathered handler at terminal for targets `{a,b,c}` where `a`,`b`
produced `"OK"` and `c` produced `"FAIL"`: exactly two groups are
rendered, `("OK", {a,b})` then `("FAIL", {c})`, each distinct payload
once with its target set, ordered by natural-order minimum key
(`a < c`), with no residual line.  Two further runs check the ordering
and the residual clause: payload groups whose minimum keys arrive in the
opposite order are swapped by the sort, and a target that contributed no
buffer is reported in a residual finalize line. -/
theorem gather_two_groups :
    gather_ev_close [(0, ["a", "b", "c"])]
        [("a", "OK"), ("b", "OK"), ("c", "FAIL")] =
      [RenderItem.gather "OK" ["a", "b"],
       RenderItem.gather "FAIL" ["c"]] ∧
    gather_ev_close [(0, ["a", "b", "c"])]
        [("b", "X"), ("c", "X"), ("a", "Y")] =
      [RenderItem.gather "Y" ["a"],
       RenderItem.gather "X" ["b", "c"]] ∧
    gather_ev_close [(0, ["a", "b", "c", "d"])]
        [("a", "OK"), ("b", "OK"), ("c", "FAIL")] =
      [RenderItem.gather "OK" ["a", "b"],
       RenderItem.gather "FAIL" ["c"],
       RenderItem.finalizeLine ["d"]] := by
  refine ⟨by decide, by decide, by decide⟩

/-! ## Live-gathered output handler (`LiveGatherOutputHandler`) -/

/-- `LiveGatherOutputHandler` state: `_nodes` (active targets), `_nodecnt`
(per-target stdout line counter), `_mtreeq` (one partial grouping —
(target, payload) contributions — per line index not yet flushed) and
`_offload` (number of entries already flushed). -/
structure LiveState where
  nodes : List String
  nodecnt : List (String × Nat)
  mtreeq : List (List (String × String))
  offload : Nat
  deriving Repr, DecidableEq

/-- `LiveGatherOutputHandler.__init__`: all counters zero, empty queue. -/
def initLive (nodes : List String) : LiveState :=
  { nodes := nodes, nodecnt := nodes.map (fun n => (n, 0)),
    mtreeq := [], offload := 0 }

def getCnt (l : List (String × Nat)) (k : String) : Nat :=
  (List.lookup k l).getD 0

def setCnt : List (String × Nat) → String → Nat → List (String × Nat)
  | [], k, v => [(k, v)]
  | p :: ps, k, v => if p.1 == k then (k, v) :: ps else p :: setCnt ps k v

/-- Apply `f` to the element at index `i`. -/
def modifyIdx : List α → Nat → (α → α) → List α
  | [], _, _ => []
  | x :: xs, 0, f => f x :: xs
  | x :: xs, Nat.succ j, f => x :: modifyIdx xs j f

/-- The drain loop of `_live_line`: while the queue's head entry has a
contribution from every active target, pop it and render its sorted
buffer groups.  Returns the remaining queue, the number of entries
popped, and the renders in order. -/
def drainQ (numNodes : Nat) :
    List (List (String × String)) →
      List (List (String × String)) × Nat × List (String × List String)
  | [] => ([], 0, [])
  | e :: rest =>
      if e.length = numNodes then
        let r := drainQ numNodes rest
        (r.1, r.2.1 + 1, walkGather e ++ r.2.2)
      else (e :: rest, 0, [])

/-- `LiveGatherOutputHandler._live_line`: drain and render, bumping
`_offload` once per popped entry. -/
def live_line (st : LiveState) : LiveState × List (String × List String) :=
  let r := drainQ st.nodes.length st.mtreeq
  ({ st with mtreeq := r.1, offload := st.offload + r.2.1 }, r.2.2)

/-- `LiveGatherOutputHandler.ev_read` for a stdout line: increment the
target's counter to `cnt`, append one empty entry when
`len(_mtreeq) < cnt`, insert the payload at index
`cnt - _offload - 1`, then drain. -/
def lg_ev_read (st : LiveState) (node msg : String) :
    LiveState × List (String × List String) :=
  let cnt := getCnt st.nodecnt node + 1
  let nodecnt := setCnt st.nodecnt node cnt
  let q0 := if st.mtreeq.length < cnt then st.mtreeq ++ [[]] else st.mtreeq
  let q1 := modifyIdx q0 (cnt - st.offload - 1) (fun e => e ++ [(node, msg)])
  live_line { st with nodecnt := nodecnt, mtreeq := q1 }

/-- `LiveGatherOutputHandler.ev_hup`: when the queue is nonempty and the
disconnecting target has not contributed to its head entry, forget the
target and retry the drain; otherwise do nothing. -/
def lg_ev_hup (st : LiveState) (node : String) :
    LiveState × List (String × List String) :=
  match st.mtreeq with
  | [] => (st, [])
  | e :: _ =>
      if e.all (fun p => !(p.1 == node)) then
        live_line { st with nodes := st.nodes.erase node }
      else (st, [])

/-- `LiveGatherOutputHandler.ev_close`: flush every entry still queued,
rendering each the same way. -/
def lg_ev_close (st : LiveState) : List (String × List String) :=
  (st.mtreeq.map walkGather).flatten

/-- An input event of the live handler. -/
inductive LiveEv where
  | read (node msg : String)
  | hup (node : String)
  deriving Repr, DecidableEq

def live_step (st : LiveState) : LiveEv → LiveState × List (String × List String)
  | .read n m => lg_ev_read st n m
  | .hup n => lg_ev_hup st n

/-- Run the live handler over an event trace, collecting the renders
produced while processing each event. -/
def live_run (st : LiveState) :
    List LiveEv → LiveState × List (List (String × List String))
  | [] => (st, [])
  | ev :: rest =>
      let r1 := live_step st ev
      let r2 := live_run r1.1 rest
      (r2.1, r1.2 :: r2.2)

/-- C4: live-gathered handler with active targets `{a,b}`, `a` emitting
`L1` then `L2` and `b` emitting only `L1` before disconnecting.  First
trace (disconnect arrives after `a`'s `L2`): `L1` is rendered exactly at
the event where the second target contributes to the head entry — as the
single group `("L1", {a,b})` — nothing is rendered on `a`'s `L2`, and
`b`'s disconnect flushes `L2` as `("L2", {a})` using only `a`'s
contribution, leaving nothing queued at terminal.  Second trace (the
disconnect arrives while the queue is empty, so the handler cannot
forget `b` then): `L2` stays queued and the terminal flush renders it as
`("L2", {a})` — a disconnecting target never permanently stalls the
line-synchronized output. -/
theorem live_gather_no_stall :
    (live_run (initLive ["a", "b"])
        [LiveEv.read "a" "L1", LiveEv.read "b" "L1",
         LiveEv.read "a" "L2", LiveEv.hup "b"]).2 =
      [[], [("L1", ["a", "b"])], [], [("L2", ["a"])]] ∧
    lg_ev_close (live_run (initLive ["a", "b"])
        [LiveEv.read "a" "L1", LiveEv.read "b" "L1",
         LiveEv.read "a" "L2", LiveEv.hup "b"]).1 = [] ∧
    (live_run (initLive ["a", "b"])
        [LiveEv.read "a" "L1", LiveEv.read "b" "L1",
         LiveEv.hup "b", LiveEv.read "a" "L2"]).2 =
      [[], [("L1", ["a", "b"])], [], []] ∧
    lg_ev_close (live_run (initLive ["a", "b"])
        [LiveEv.read "a" "L1", LiveEv.read "b" "L1",
         LiveEv.hup "b", LiveEv.read "a" "L2"]).1 =
      [("L2", ["a"])] := by
  refine ⟨by decide, by decide, by decide, by decide⟩
